import Mathlib

/-!
Formal model of the spatial-normalization interface in
`niworkflows/interfaces/norm.py`.

The module under study decides which files to hand to an external image
registration engine (mask algebra and the truth-table "input resolution"
in `SpatialNormalization._get_ants_args`), enumerates parameter presets
(`_get_settings`), and retries the engine over the presets
(`_run_interface`).  Voxel data is modelled as a flat list of integers;
files produced by the masking helpers are modelled symbolically by the
`ImgExpr` expression type (which call produced which file), together with
an evaluator `evalExpr` that runs the mask algebra on the image contents
behind each path.
-/

set_option linter.unusedVariables false

namespace NiNorm

/-- A NIfTI image: flattened voxel data plus (abstract) affine and header. -/
structure NImage where
  data : List Int
  affine : List Int
  header : List Int
deriving DecidableEq, Repr

/-- Embedding of `mask(in_file, mask_file, new_name)` from norm.py:
`data[np.asanyarray(mask_nii.dataobj) == 0] = 0` — every voxel where the
mask is 0 is set to 0, other voxels keep their value, and the new image
reuses the input image's affine and header. -/
def mask (in_nii mask_nii : NImage) : NImage :=
  ⟨List.zipWith (fun x m => if m = 0 then 0 else x) in_nii.data mask_nii.data,
   in_nii.affine, in_nii.header⟩

/-- The base array chosen by `create_cfm`:
`np.ones(in_img.shape, dtype=np.uint8) if global_mask else np.asanyarray(in_img.dataobj)`. -/
def cfmBase (in_img : NImage) (global_mask : Bool) : List Int :=
  if global_mask then List.replicate in_img.data.length 1 else in_img.data

/-- Embedding of `create_cfm(in_file, lesion_mask, global_mask)` from norm.py.
The base array is all-ones (global) or the input's own data; if the base is
not binary a `ValueError` is raised (`set(np.unique(data)) - {0,1}` nonempty);
if a lesion mask is given the result is `np.fmax(data - lm_img.dataobj, 0)`
voxelwise.  Affine and header are taken from the input image. -/
def create_cfm (in_img : NImage) (lesion_mask : Option NImage) (global_mask : Bool) :
    Except String NImage :=
  if (cfmBase in_img global_mask).all (fun v => v == 0 || v == 1) then
    match lesion_mask with
    | some lm =>
        Except.ok ⟨List.zipWith (fun b l => max (b - l) 0) (cfmBase in_img global_mask) lm.data,
          in_img.affine, in_img.header⟩
    | none => Except.ok ⟨cfmBase in_img global_mask, in_img.affine, in_img.header⟩
  else
    Except.error ("`global_mask` must be true if `in_file` is not a binary mask")

/-- True exactly when the `create_cfm` call raised the `ValueError`. -/
def isErr : Except String NImage → Bool
  | Except.error _ => true
  | Except.ok _ => false

/-- Symbolic description of a file handed to the registration engine:
either an input path, the output of `mask(img, msk, new_name)`, or the
output of `create_cfm(in_file, lesion, global_mask)` (the lesion argument
is the lesion file path or `none`, exactly as passed at the call site). -/
inductive ImgExpr where
  | file (p : String)
  | applyMask (img : ImgExpr) (msk : ImgExpr) (new_name : String)
  | cfm (in_file : ImgExpr) (lesion : Option String) (global_mask : Bool)
deriving DecidableEq, Repr

/-- The path of the file an `ImgExpr` denotes (`mask` returns `new_name`;
`create_cfm` returns `fname_presuffix(in_file, suffix='_cfm')`). -/
def ImgExpr.path : ImgExpr → String
  | ImgExpr.file p => p
  | ImgExpr.applyMask _ _ n => n
  | ImgExpr.cfm f _ _ => f.path ++ "_cfm"

/-- Run the mask algebra on the image contents behind each path;
`store` maps a path to the image stored there. -/
def evalExpr (store : String → NImage) : ImgExpr → Except String NImage
  | ImgExpr.file p => Except.ok (store p)
  | ImgExpr.applyMask i m _ =>
      match evalExpr store i, evalExpr store m with
      | Except.ok ii, Except.ok mm => Except.ok (mask ii mm)
      | Except.error e, _ => Except.error e
      | _, Except.error e => Except.error e
  | ImgExpr.cfm f l g =>
      match evalExpr store f with
      | Except.ok ff => create_cfm ff (l.map store) g
      | Except.error e => Except.error e

/-- Template orientation input (`traits.Enum('RAS', 'LAS')`). -/
inductive Orientation where
  | RAS
  | LAS
deriving DecidableEq, Repr

/-- The inputs of `SpatialNormalization` that `_get_ants_args` consults.
`none` models a trait left undefined (`isdefined(...) == False`). -/
structure Inputs where
  moving_image : String
  reference_image : Option String
  moving_mask : Option String
  reference_mask : Option String
  lesion_mask : Option String
  explicit_masking : Bool
  orientation : Orientation
deriving DecidableEq, Repr

/-- Result of the external template-resolution collaborators
(`get_template_specs` and `get_template`): the resolved template path, the
resolved template brain-mask path, and whether `op.isfile(ref_template)`. -/
structure TemplateEnv where
  ref_template : String
  ref_mask : String
  template_found : Bool
deriving DecidableEq, Repr

/-- Fatal errors `_get_ants_args` can raise: `NotImplementedError` for
orientation `LAS`, and the `ValueError` when the resolved template path is
not an existing file. -/
inductive NormError where
  | notImplemented
  | refNotFound (p : String)
deriving DecidableEq, Repr

/-- The argument bundle `_get_ants_args` returns (only the fields the mask
truth tables decide), plus the `self._reference_image` recorded for the
`reference_image` output. -/
structure AntsArgs where
  moving_image : ImgExpr
  moving_image_masks : Option ImgExpr
  fixed_image : ImgExpr
  fixed_image_masks : Option ImgExpr
  reference_image : String
deriving DecidableEq, Repr

/-- Moving-side truth table of `_get_ants_args` (norm.py lines 278-317):
returns the resolved `moving_image` and `moving_image_masks`. -/
def movingArgs (inp : Inputs) : ImgExpr × Option ImgExpr :=
  match inp.moving_mask with
  | some mm =>
      let mimg : ImgExpr :=
        if inp.explicit_masking then
          ImgExpr.applyMask (ImgExpr.file inp.moving_image) (ImgExpr.file mm)
            ("moving_masked.nii.gz")
        else
          ImgExpr.file inp.moving_image
      let mmasks : Option ImgExpr :=
        if inp.explicit_masking then none else some (ImgExpr.file mm)
      match inp.lesion_mask with
      | some lm => (mimg, some (ImgExpr.cfm (ImgExpr.file mm) (some lm) inp.explicit_masking))
      | none => (mimg, mmasks)
  | none =>
      match inp.lesion_mask with
      | some lm =>
          (ImgExpr.file inp.moving_image,
           some (ImgExpr.cfm (ImgExpr.file inp.moving_image) (some lm) true))
      | none => (ImgExpr.file inp.moving_image, none)

/-- Reference-side truth table of `_get_ants_args` (norm.py lines 347-452):
returns the resolved `fixed_image`, `fixed_image_masks` and the recorded
`self._reference_image`.  Note that all three `create_cfm` call sites on
this side pass `lesion_mask=None`. -/
def fixedArgs (inp : Inputs) (env : TemplateEnv) :
    Except NormError (ImgExpr × Option ImgExpr × String) :=
  match inp.reference_image with
  | some ref =>
      match inp.reference_mask with
      | some rm =>
          if inp.explicit_masking then
            match inp.lesion_mask with
            | some _ =>
                Except.ok
                  (ImgExpr.applyMask (ImgExpr.file ref) (ImgExpr.file rm) ("fixed_masked.nii.gz"),
                   some (ImgExpr.cfm (ImgExpr.file rm) none true), ref)
            | none =>
                Except.ok
                  (ImgExpr.applyMask (ImgExpr.file ref) (ImgExpr.file rm) ("fixed_masked.nii.gz"),
                   none, ref)
          else
            Except.ok (ImgExpr.file ref, some (ImgExpr.file rm), ref)
      | none =>
          match inp.lesion_mask with
          | some _ =>
              Except.ok (ImgExpr.file ref, some (ImgExpr.cfm (ImgExpr.file ref) none true), ref)
          | none => Except.ok (ImgExpr.file ref, none, ref)
  | none =>
      if inp.orientation = Orientation.LAS then
        Except.error NormError.notImplemented
      else if env.template_found then
        if inp.explicit_masking then
          match inp.lesion_mask with
          | some _ =>
              Except.ok
                (ImgExpr.applyMask (ImgExpr.file env.ref_template) (ImgExpr.file env.ref_mask)
                   ("fixed_masked.nii.gz"),
                 some (ImgExpr.cfm (ImgExpr.file env.ref_mask) none true), env.ref_template)
          | none =>
              Except.ok
                (ImgExpr.applyMask (ImgExpr.file env.ref_template) (ImgExpr.file env.ref_mask)
                   ("fixed_masked.nii.gz"),
                 none, env.ref_template)
        else
          Except.ok (ImgExpr.file env.ref_template, some (ImgExpr.file env.ref_mask),
            env.ref_template)
      else
        Except.error (NormError.refNotFound env.ref_template)

instance {ε α : Type} [DecidableEq ε] [DecidableEq α] : DecidableEq (Except ε α)
  | Except.error a, Except.error b =>
      if h : a = b then Decidable.isTrue (by rw [h])
      else Decidable.isFalse (by intro hc; cases hc; exact h rfl)
  | Except.error _, Except.ok _ => Decidable.isFalse (by intro hc; cases hc)
  | Except.ok _, Except.error _ => Decidable.isFalse (by intro hc; cases hc)
  | Except.ok a, Except.ok b =>
      if h : a = b then Decidable.isTrue (by rw [h])
      else Decidable.isFalse (by intro hc; cases hc; exact h rfl)

/-- Embedding of `SpatialNormalization._get_ants_args`: combine the
moving-side and reference-side resolutions. -/
def getAntsArgs (inp : Inputs) (env : TemplateEnv) : Except NormError AntsArgs :=
  match fixedArgs inp env with
  | Except.error e => Except.error e
  | Except.ok (fi, fim, ref) =>
      Except.ok ⟨(movingArgs inp).1, (movingArgs inp).2, fi, fim, ref⟩

/-- Decimal digit characters (most significant first), with explicit fuel
so that the definition is structurally recursive. -/
def decDigitsAux : Nat → Nat → List Char
  | 0, _ => []
  | fuel + 1, n =>
      if n < 10 then [Char.ofNat (48 + n)]
      else decDigitsAux fuel (n / 10) ++ [Char.ofNat (48 + n % 10)]

/-- Decimal digit characters of a natural number (most significant first),
as produced by Python's `d` format. -/
def decDigits (n : Nat) : List Char := decDigitsAux (n + 1) n

/-- Python's `f string` formatting `\x7bn:04d\x7d`: the decimal digits,
left-padded with zeros to a minimum width of 4. -/
def zeroPad4 (n : Nat) : String :=
  if (decDigits n).length < 4 then
    String.mk (List.replicate (4 - (decDigits n).length) '0' ++ decDigits n)
  else
    String.mk (decDigits n)

/-- The terminal streams of one engine run (`runtime.stdout`,
`runtime.stderr`, `runtime.merged`; the empty string models a missing or
empty stream). -/
structure Streams where
  stdout : String
  stderr : String
  merged : String
deriving DecidableEq, Repr

/-- Embedding of `_write_outputs(runtime, out_fname)` from norm.py: for each
of the three stream names, if the stream is non-empty, write the file
`op.join(runtime.cwd, name + out_fname)`; return the list of files written. -/
def write_outputs (cwd : String) (rt : Streams) (out_fname : String) : List String :=
  (if rt.stdout = "" then [] else [cwd ++ "/stdout" ++ out_fname]) ++
    (if rt.stderr = "" then [] else [cwd ++ "/stderr" ++ out_fname]) ++
      (if rt.merged = "" then [] else [cwd ++ "/merged" ++ out_fname])

/-- What one engine invocation (one `self.norm.run()`) produces: the process
returncode and the terminal streams of that attempt. -/
structure AttemptOutcome where
  returncode : Int
  streams : Streams
deriving DecidableEq, Repr

/-- Observable outcome of `_run_interface`'s retry loop: how many times the
registration engine was invoked, either the 1-based retry number that
succeeded or the `RuntimeError` message, and the diagnostic files written
for failed attempts. -/
structure OrchestratorRun where
  invocations : Nat
  result : Except String Nat
  out_files : List String
deriving DecidableEq, Repr

/-- The retry loop of `_run_interface` (norm.py lines 196-238): for each
settings file run the engine; on a non-zero returncode persist the streams
with suffix `.nipype-` followed by the zero-padded retry number and
continue with `retry + 1`; on returncode zero stop and return; when the
list is exhausted raise
`RuntimeError('Robust spatial normalization failed after N retries.')`
with `N = retry - 1`. -/
def runInterfaceAux (cwd : String) :
    List AttemptOutcome → Nat → Nat → List String → OrchestratorRun
  | [], retry, inv, files =>
      ⟨inv,
       Except.error ("Robust spatial normalization failed after " ++ toString (retry - 1) ++
         " retries."),
       files⟩
  | a :: rest, retry, inv, files =>
      if a.returncode ≠ 0 then
        runInterfaceAux cwd rest (retry + 1) (inv + 1)
          (files ++ write_outputs cwd a.streams (".nipype-" ++ zeroPad4 retry))
      else
        ⟨inv + 1, Except.ok retry, files⟩

/-- The retry loop started as `__init__` leaves it: `self.retry = 1`, no
engine invocations yet, no diagnostic files yet.  `attempts` holds, in
order, the outcome the external engine would report for each settings
file. -/
def runInterface (cwd : String) (attempts : List AttemptOutcome) : OrchestratorRun :=
  runInterfaceAux cwd attempts 1 0 []

/-- `_run_interface` including the initialization step: the
`AffineInitializer` runs exactly when no `initial_moving_transform` input
was supplied (norm.py lines 175-193), before the retry loop; the Bool
records whether it ran. -/
def runInterfaceFull (cwd : String) (initial_moving_transform : Option String)
    (attempts : List AttemptOutcome) : Bool × OrchestratorRun :=
  (initial_moving_transform.isNone, runInterfaceAux cwd attempts 1 0 [])

/-- The diagnostic files the loop writes when every attempt in `l` fails,
starting at retry number `r` (each failed attempt contributes
`_write_outputs` of its streams under its own suffix). -/
def failFiles (cwd : String) : List AttemptOutcome → Nat → List String
  | [], _ => []
  | a :: rest, r =>
      write_outputs cwd a.streams (".nipype-" ++ zeroPad4 r) ++ failFiles cwd rest (r + 1)

/-- Python's `str.lower()` restricted to ASCII (file names here are ASCII). -/
def strToLower (s : String) : String := String.mk (s.data.map Char.toLower)

/-- The glob stem `f string` `\x7bmoving.lower()\x7d-mni_registration_\x7bflavor\x7d_`
used by `_get_settings`. -/
def settingsStem (moving flavor : String) : String :=
  strToLower moving ++ "-mni_registration_" ++ flavor ++ "_"

/-- A file name matches the glob pattern `stem*.json`: it starts with the
stem, ends with `.json`, and is long enough that the two do not overlap. -/
def globMatch (moving flavor fname : String) : Bool :=
  List.isPrefixOf (settingsStem moving flavor).data fname.data &&
    List.isSuffixOf (".json").data fname.data &&
      decide ((settingsStem moving flavor).data.length + 5 ≤ fname.data.length)

/-- Lexicographic comparison of character lists by code point, as Python
compares strings: equal heads recurse, otherwise compare the heads, and a
proper prefix sorts first. -/
def charListLe : List Char → List Char → Bool
  | [], _ => true
  | _ :: _, [] => false
  | a :: as, b :: bs => if a = b then charListLe as bs else decide (a < b)

/-- Python's string order: lexicographic by code point. -/
def strLe (a b : String) : Bool := charListLe a.data b.data

/-- Embedding of `SpatialNormalization._get_settings` (norm.py lines
148-168): if user settings are defined return them as-is; otherwise return
`sorted(...)` of the data-directory files matching the modality/flavor
glob.  `dataFiles` is the contents of the bundled data directory. -/
def getSettings (settings : Option (List String)) (moving flavor : String)
    (dataFiles : List String) : List String :=
  match settings with
  | some s => s
  | none =>
      List.insertionSort (fun a b => strLe a b = true)
        (dataFiles.filter (globMatch moving flavor))

/-! ### Concrete jobs and file stores used in counterexamples and witnesses -/

/-- Concrete job for the C1 counterexample: explicit reference with
reference mask, explicit masking, and a lesion mask. -/
def c1inp : Inputs :=
  ⟨"mov.nii", some ("ref.nii"), none, some ("rm.nii"), some ("lm.nii"), true, Orientation.RAS⟩

/-- Concrete template environment shared by the C1/C2 counterexamples. -/
def c1env : TemplateEnv := ⟨"tpl.nii", "tplmask.nii", true⟩

/-- Concrete file store: the reference mask is all ones over two voxels,
the lesion marks the first voxel. -/
def c1store : String → NImage := fun p =>
  if p = "rm.nii" then ⟨[1, 1], [5], [6]⟩
  else if p = "lm.nii" then ⟨[1, 0], [5], [6]⟩
  else ⟨[0, 0], [5], [6]⟩

/-- Concrete job for C2 sub-case (a): explicit reference, no reference
mask, lesion mask present. -/
def c2ainp : Inputs :=
  ⟨"mov.nii", some ("ref.nii"), none, none, some ("lm.nii"), true, Orientation.RAS⟩

/-- Concrete job for C2 sub-case (b): no reference image, template
resolved, explicit masking, lesion mask present. -/
def c2binp : Inputs :=
  ⟨"mov.nii", none, none, none, some ("lm.nii"), true, Orientation.RAS⟩

/-- Concrete file store for the C2 counterexample: the template brain mask
covers only the first voxel, the lesion also marks the first voxel. -/
def c2store : String → NImage := fun p =>
  if p = "tplmask.nii" then ⟨[1, 0], [5], [6]⟩
  else if p = "lm.nii" then ⟨[1, 0], [5], [6]⟩
  else ⟨[0, 0], [5], [6]⟩

/-- Concrete job for the C3 counterexample: no masks, no explicit
reference, explicit_masking=true, template resolved. -/
def c3inp : Inputs := ⟨"mov.nii", none, none, none, none, true, Orientation.RAS⟩

/-- Concrete template environment for the C3 counterexample. -/
def c3env : TemplateEnv := ⟨"tpl-T1w.nii", "tplmask.nii", true⟩

/-! ### Helper lemmas about the mask algebra -/

lemma maskF_getD : ∀ (d md : List Int) (i : Nat), i < d.length → i < md.length →
    (List.zipWith (fun x m => if m = 0 then 0 else x) d md).getD i 0 =
      if md.getD i 0 = 0 then 0 else d.getD i 0 := by
  intro d
  induction d with
  | nil => intro md i h1 h2; simp at h1
  | cons x xs ih =>
    intro md i h1 h2
    cases md with
    | nil => simp at h2
    | cons m ms =>
      cases i with
      | zero => simp [List.getD]
      | succ j =>
        simpa [List.zipWith] using ih ms j (by simpa using h1) (by simpa using h2)

lemma mask_idem_data : ∀ (d md : List Int),
    List.zipWith (fun x m => if m = 0 then 0 else x)
        (List.zipWith (fun x m => if m = 0 then 0 else x) d md) md =
      List.zipWith (fun x m => if m = 0 then 0 else x) d md := by
  intro d
  induction d with
  | nil => intro md; simp
  | cons x xs ih =>
    intro md
    cases md with
    | nil => simp
    | cons m ms =>
      simp only [List.zipWith]
      by_cases h : m = 0
      · simp [h, ih]
      · simp [h, ih]

lemma mem_zipWith_clamp : ∀ (a b : List Int) (v : Int),
    v ∈ List.zipWith (fun x y => max (x - y) 0) a b → ∃ x ∈ a, ∃ y ∈ b, v = max (x - y) 0 := by
  intro a
  induction a with
  | nil => intro b v hv; simp at hv
  | cons x xs ih =>
    intro b v hv
    cases b with
    | nil => simp at hv
    | cons y ys =>
      simp only [List.zipWith, List.mem_cons] at hv
      rcases hv with h | h
      · exact ⟨x, List.mem_cons_self x xs, y, List.mem_cons_self y ys, h⟩
      · rcases ih ys v h with ⟨x', hx', y', hy', hv'⟩
        exact ⟨x', List.mem_cons_of_mem _ hx', y', List.mem_cons_of_mem _ hy', hv'⟩

lemma create_cfm_some_eq (base lm : NImage) (g : Bool)
    (hall : (cfmBase base g).all (fun v => v == 0 || v == 1) = true) :
    create_cfm base (some lm) g =
      Except.ok ⟨List.zipWith (fun b l => max (b - l) 0) (cfmBase base g) lm.data,
        base.affine, base.header⟩ := by
  unfold create_cfm
  rw [if_pos hall]

lemma create_cfm_none_eq (base : NImage) (g : Bool)
    (hall : (cfmBase base g).all (fun v => v == 0 || v == 1) = true) :
    create_cfm base none g = Except.ok ⟨cfmBase base g, base.affine, base.header⟩ := by
  unfold create_cfm
  rw [if_pos hall]

lemma create_cfm_error_eq (base : NImage) (lm : Option NImage) (g : Bool)
    (hall : ¬ ((cfmBase base g).all (fun v => v == 0 || v == 1) = true)) :
    create_cfm base lm g =
      Except.error ("`global_mask` must be true if `in_file` is not a binary mask") := by
  unfold create_cfm
  rw [if_neg hall]

lemma cfmBase_true_all (img : NImage) :
    (cfmBase img true).all (fun v => v == 0 || v == 1) = true := by
  simp [cfmBase, List.all_eq_true, List.mem_replicate]

/-- With `global_mask=True` and no lesion mask, `create_cfm` produces the
all-ones array shaped like the input. -/
lemma create_cfm_global_none (img : NImage) :
    create_cfm img none true =
      Except.ok ⟨List.replicate img.data.length 1, img.affine, img.header⟩ := by
  rw [create_cfm_none_eq img true (cfmBase_true_all img)]
  rfl

/-! ### Mask-algebra claims -/

/-- C7: the output of `mask` is zero at every voxel where the mask is zero
and equals the input voxel elsewhere, the affine and header of the input
are kept, and masking twice with the same mask equals masking once. -/
theorem apply_mask_spec (img msk : NImage) (h : msk.data.length = img.data.length) :
    (∀ i, i < img.data.length →
        (mask img msk).data.getD i 0 =
          if msk.data.getD i 0 = 0 then 0 else img.data.getD i 0) ∧
    (mask img msk).affine = img.affine ∧
    (mask img msk).header = img.header ∧
    mask (mask img msk) msk = mask img msk := by
  refine ⟨fun i hi => maskF_getD img.data msk.data i hi (by omega), rfl, rfl, ?_⟩
  simp [mask, mask_idem_data]

theorem apply_mask_spec_witness :
    mask (mask ⟨[5, 7], [1], [2]⟩ ⟨[0, 1], [3], [4]⟩) ⟨[0, 1], [3], [4]⟩ =
      mask ⟨[5, 7], [1], [2]⟩ ⟨[0, 1], [3], [4]⟩ :=
  (apply_mask_spec ⟨[5, 7], [1], [2]⟩ ⟨[0, 1], [3], [4]⟩ (by decide)).2.2.2

/-- C8: whenever `create_cfm` is called with a (binary) lesion mask and
returns, no output voxel is negative and every output voxel is 0 or 1 —
the result of `max(base - lesion, 0)` on a binary base. -/
theorem cfm_lesion_binary (base lm out : NImage) (g : Bool)
    (hok : create_cfm base (some lm) g = Except.ok out) :
    (∀ v ∈ out.data, 0 ≤ v) ∧
    ((∀ v ∈ lm.data, v = 0 ∨ v = 1) → ∀ v ∈ out.data, v = 0 ∨ v = 1) := by
  by_cases hall : (cfmBase base g).all (fun v => v == 0 || v == 1) = true
  · rw [create_cfm_some_eq base lm g hall] at hok
    injection hok with hout
    subst hout
    constructor
    · intro v hv
      rcases mem_zipWith_clamp _ _ v hv with ⟨x, hx, y, hy, rfl⟩
      exact le_max_right _ _
    · intro hbin v hv
      rcases mem_zipWith_clamp _ _ v hv with ⟨x, hx, y, hy, rfl⟩
      have hx01 : x = 0 ∨ x = 1 := by
        have hx2 := List.all_eq_true.mp hall x hx
        simpa using hx2
      rcases hx01 with rfl | rfl <;> rcases hbin y hy with rfl | rfl <;> decide
  · rw [create_cfm_error_eq base (some lm) g hall] at hok
    cases hok

theorem cfm_lesion_binary_witness : (0 : Int) = 0 ∨ (0 : Int) = 1 :=
  (cfm_lesion_binary ⟨[1, 0, 1], [9], [8]⟩ ⟨[1, 0, 0], [9], [8]⟩ ⟨[0, 0, 1], [9], [8]⟩ false
      (by decide)).2 (by decide) 0 (by decide)

/-- C9: with `global_mask=false`, `create_cfm` raises the ValueError if and
only if the input image's data has a voxel outside 0 and 1; with
`global_mask=true` it never raises, whatever the input data and lesion. -/
theorem cfm_binary_check (img : NImage) (lm lm2 : Option NImage) :
    (isErr (create_cfm img lm false) = true ↔ ∃ v ∈ img.data, ¬(v = 0 ∨ v = 1)) ∧
    isErr (create_cfm img lm2 true) = false := by
  have hbase : cfmBase img false = img.data := rfl
  constructor
  · by_cases hall : (cfmBase img false).all (fun v => v == 0 || v == 1) = true
    · have hok : isErr (create_cfm img lm false) = false := by
        cases lm with
        | none => rw [create_cfm_none_eq _ _ hall]; rfl
        | some l => rw [create_cfm_some_eq _ _ _ hall]; rfl
      rw [hok]
      simp only [Bool.false_eq_true, false_iff]
      rintro ⟨v, hv, hbad⟩
      have hv2 := List.all_eq_true.mp hall v (hbase ▸ hv)
      simp only [Bool.or_eq_true, beq_iff_eq] at hv2
      exact hbad hv2
    · rw [create_cfm_error_eq _ _ _ hall]
      simp only [isErr, true_iff]
      rw [hbase] at hall
      have h2 : ¬ ∀ v ∈ img.data, ((v == 0 || v == 1) = true) := by
        intro hc; exact hall (List.all_eq_true.mpr hc)
      push_neg at h2
      rcases h2 with ⟨v, hv, hbad⟩
      refine ⟨v, hv, ?_⟩
      simpa using hbad
  · cases lm2 with
    | none => rw [create_cfm_none_eq _ _ (cfmBase_true_all img)]; rfl
    | some l => rw [create_cfm_some_eq _ _ _ (cfmBase_true_all img)]; rfl

/-! ### Helper lemmas about the retry orchestrator -/

lemma decDigitsAux_length_le :
    ∀ (fuel n k : Nat), n < fuel → 0 < k → n < 10 ^ k → (decDigitsAux fuel n).length ≤ k := by
  intro fuel
  induction fuel with
  | zero => intro n k h; omega
  | succ f ih =>
    intro n k hn hk hnk
    simp only [decDigitsAux]
    split
    · simpa using hk
    · rename_i h10
      have hk2 : 2 ≤ k := by
        by_contra hc
        have hk1 : k = 1 := by omega
        subst hk1
        simp only [pow_one] at hnk
        omega
      have hdivlt : n / 10 < f := by
        have hd := Nat.div_lt_self (by omega : 0 < n) (by omega : 1 < 10)
        omega
      have hdivpow : n / 10 < 10 ^ (k - 1) := by
        rw [Nat.div_lt_iff_lt_mul (by omega : 0 < 10)]
        have hp : 10 ^ (k - 1) * 10 = 10 ^ k := by
          rw [← pow_succ]
          congr 1
          omega
        omega
      have hrec := ih (n / 10) (k - 1) hdivlt (by omega) hdivpow
      simp only [List.length_append, List.length_cons, List.length_nil]
      omega

lemma zeroPad4_length (n : Nat) (h : n ≤ 9999) : (zeroPad4 n).length = 4 := by
  have h4 : (10 : Nat) ^ 4 = 10000 := by norm_num
  have hlen : (decDigits n).length ≤ 4 :=
    decDigitsAux_length_le (n + 1) n 4 (by omega) (by omega) (by omega)
  unfold zeroPad4
  split
  · rename_i hlt
    show (List.replicate (4 - (decDigits n).length) '0' ++ decDigits n).length = 4
    simp only [List.length_append, List.length_replicate]
    omega
  · rename_i hge
    show (decDigits n).length = 4
    omega

lemma runAux_first_success (cwd : String) (a : AttemptOutcome) (ha : a.returncode = 0)
    (rest : List AttemptOutcome) :
    ∀ (pre : List AttemptOutcome), (∀ x ∈ pre, x.returncode ≠ 0) →
    ∀ (r inv : Nat) (files : List String),
      runInterfaceAux cwd (pre ++ a :: rest) r inv files =
        ⟨inv + pre.length + 1, Except.ok (r + pre.length), files ++ failFiles cwd pre r⟩ := by
  intro pre
  induction pre with
  | nil =>
    intro hpre r inv files
    simp only [List.nil_append, runInterfaceAux, failFiles, List.length_nil]
    rw [if_neg (by simp [ha])]
    simp
  | cons p ps ih =>
    intro hpre r inv files
    have hp : p.returncode ≠ 0 := hpre p (List.mem_cons_self p ps)
    simp only [List.cons_append, runInterfaceAux, List.append_eq]
    rw [if_pos hp,
      ih (fun x hx => hpre x (List.mem_cons_of_mem _ hx)) (r + 1) (inv + 1) _]
    simp only [failFiles, OrchestratorRun.mk.injEq, List.append_assoc, List.length_cons]
    exact ⟨by omega, by rw [show r + 1 + ps.length = r + (ps.length + 1) from by omega],
      by simp⟩

lemma runAux_all_fail (cwd : String) :
    ∀ (l : List AttemptOutcome), (∀ x ∈ l, x.returncode ≠ 0) →
    ∀ (r inv : Nat) (files : List String),
      runInterfaceAux cwd l r inv files =
        ⟨inv + l.length,
         Except.error ("Robust spatial normalization failed after " ++
           toString (r + l.length - 1) ++ " retries."),
         files ++ failFiles cwd l r⟩ := by
  intro l
  induction l with
  | nil =>
    intro h r inv files
    simp [runInterfaceAux, failFiles]
  | cons p ps ih =>
    intro h r inv files
    have hp : p.returncode ≠ 0 := h p (List.mem_cons_self p ps)
    simp only [runInterfaceAux, List.append_eq]
    rw [if_pos hp, ih (fun x hx => h x (List.mem_cons_of_mem _ hx))]
    simp only [failFiles, OrchestratorRun.mk.injEq, List.append_assoc, List.length_cons]
    exact ⟨by omega,
      by rw [show r + 1 + ps.length - 1 = r + (ps.length + 1) - 1 from by omega], by simp⟩

/-- When every attempt has all three streams non-empty, each failed attempt
persists exactly its `stdout`, `stderr` and `merged` files under its
`.nipype-` retry suffix. -/
lemma failFiles_full_streams (cwd : String) :
    ∀ (l : List AttemptOutcome) (r : Nat),
      (∀ x ∈ l, x.streams.stdout ≠ "" ∧ x.streams.stderr ≠ "" ∧ x.streams.merged ≠ "") →
      failFiles cwd l r =
        (List.range l.length).flatMap (fun i =>
          [cwd ++ "/stdout" ++ (".nipype-" ++ zeroPad4 (r + i)),
           cwd ++ "/stderr" ++ (".nipype-" ++ zeroPad4 (r + i)),
           cwd ++ "/merged" ++ (".nipype-" ++ zeroPad4 (r + i))]) := by
  intro l
  induction l with
  | nil => intro r h; simp [failFiles]
  | cons p ps ih =>
    intro r h
    have hp := h p (List.mem_cons_self p ps)
    simp only [failFiles, write_outputs]
    rw [if_neg hp.1, if_neg hp.2.1, if_neg hp.2.2,
      ih (r + 1) (fun x hx => h x (List.mem_cons_of_mem _ hx))]
    simp only [List.length_cons, List.range_succ_eq_map, List.flatMap_cons, List.flatMap_map,
      Function.comp, Nat.add_zero, Nat.succ_eq_add_one,
      show ∀ i, r + 1 + i = r + (i + 1) from fun i => by omega]
    simp

/-! ### Retry-orchestrator claims -/

/-- C4: if the attempts before position k = `pre.length + 1` (1-indexed) all
fail and attempt k succeeds, the loop invokes the engine exactly k times,
returns normally reporting retry number k, and the remaining
N - k = `rest.length` presets are never run. -/
theorem retry_first_success (cwd : String) (pre rest : List AttemptOutcome) (a : AttemptOutcome)
    (hpre : ∀ x ∈ pre, x.returncode ≠ 0) (ha : a.returncode = 0) :
    (runInterface cwd (pre ++ a :: rest)).invocations = pre.length + 1 ∧
    (runInterface cwd (pre ++ a :: rest)).result = Except.ok (pre.length + 1) ∧
    (pre ++ a :: rest).length = (pre.length + 1) + rest.length := by
  unfold runInterface
  rw [runAux_first_success cwd a ha rest pre hpre 1 0 []]
  refine ⟨?_, ?_, ?_⟩
  · show 0 + pre.length + 1 = pre.length + 1
    omega
  · show Except.ok (1 + pre.length) = Except.ok (pre.length + 1)
    rw [Nat.add_comm]
  · simp only [List.length_append, List.length_cons]
    omega

theorem retry_first_success_witness :
    (runInterface ("wd") (([⟨1, "o", "e", "m"⟩, ⟨2, "o", "e", "m"⟩] : List AttemptOutcome) ++
        (⟨0, "", "", ""⟩ : AttemptOutcome) :: [⟨3, "o", "e", "m"⟩])).invocations = 2 + 1 ∧
    (runInterface ("wd") (([⟨1, "o", "e", "m"⟩, ⟨2, "o", "e", "m"⟩] : List AttemptOutcome) ++
        (⟨0, "", "", ""⟩ : AttemptOutcome) :: [⟨3, "o", "e", "m"⟩])).result = Except.ok (2 + 1) ∧
    (([⟨1, "o", "e", "m"⟩, ⟨2, "o", "e", "m"⟩] : List AttemptOutcome) ++
        (⟨0, "", "", ""⟩ : AttemptOutcome) :: [⟨3, "o", "e", "m"⟩]).length = (2 + 1) + 1 :=
  retry_first_success ("wd") [⟨1, "o", "e", "m"⟩, ⟨2, "o", "e", "m"⟩] [⟨3, "o", "e", "m"⟩]
    ⟨0, "", "", ""⟩ (by decide) rfl

/-- C5: when all N attempts fail, the loop raises the RuntimeError whose
message reports exactly N retries, and each failed attempt i persists its
stdout/stderr/merged streams under the suffix `.nipype-` followed by i as
a zero-padded 4-digit index, for i = 1..N (the suffix has length 8+4). -/
theorem retry_exhaustion (cwd : String) (attempts : List AttemptOutcome)
    (hfail : ∀ x ∈ attempts, x.returncode ≠ 0)
    (hstreams : ∀ x ∈ attempts,
      x.streams.stdout ≠ "" ∧ x.streams.stderr ≠ "" ∧ x.streams.merged ≠ "")
    (hN : attempts.length ≤ 9999) :
    (runInterface cwd attempts).invocations = attempts.length ∧
    (runInterface cwd attempts).result =
      Except.error ("Robust spatial normalization failed after " ++
        toString attempts.length ++ " retries.") ∧
    (runInterface cwd attempts).out_files =
      (List.range attempts.length).flatMap (fun i =>
        [cwd ++ "/stdout" ++ (".nipype-" ++ zeroPad4 (i + 1)),
         cwd ++ "/stderr" ++ (".nipype-" ++ zeroPad4 (i + 1)),
         cwd ++ "/merged" ++ (".nipype-" ++ zeroPad4 (i + 1))]) ∧
    (∀ i, i < attempts.length → (".nipype-" ++ zeroPad4 (i + 1)).length = 12) := by
  unfold runInterface
  rw [runAux_all_fail cwd attempts hfail 1 0 []]
  refine ⟨?_, ?_, ?_, ?_⟩
  · show 0 + attempts.length = attempts.length
    omega
  · show Except.error _ = Except.error _
    rw [show 1 + attempts.length - 1 = attempts.length from by omega]
  · show [] ++ failFiles cwd attempts 1 = _
    rw [List.nil_append, failFiles_full_streams cwd attempts 1 hstreams]
    simp only [show ∀ i : Nat, 1 + i = i + 1 from fun i => by omega]
  · intro i hi
    rw [String.length_append, zeroPad4_length (i + 1) (by omega)]
    decide

theorem retry_exhaustion_witness :
    (runInterface ("wd") [⟨1, "o", "e", "m"⟩, ⟨7, "o2", "e2", "m2"⟩]).out_files =
      (List.range 2).flatMap (fun i =>
        ["wd" ++ "/stdout" ++ (".nipype-" ++ zeroPad4 (i + 1)),
         "wd" ++ "/stderr" ++ (".nipype-" ++ zeroPad4 (i + 1)),
         "wd" ++ "/merged" ++ (".nipype-" ++ zeroPad4 (i + 1))]) :=
  (retry_exhaustion ("wd") [⟨1, "o", "e", "m"⟩, ⟨7, "o2", "e2", "m2"⟩]
      (by decide) (by decide) (by decide)).2.2.1

/-- C10: with an empty resolved preset list, the registration engine is
invoked zero times and the RuntimeError reports 0 retries, even though the
affine initializer already ran (no initial transform was supplied); and
`_get_settings` without user settings over a data directory with no
matching file does resolve to the empty list. -/
theorem retry_empty_presets (cwd : String) :
    (runInterfaceFull cwd none []).1 = true ∧
    (runInterfaceFull cwd none []).2.invocations = 0 ∧
    (runInterfaceFull cwd none []).2.result =
      Except.error ("Robust spatial normalization failed after 0 retries.") ∧
    (∀ moving flavor : String, getSettings none moving flavor [] = []) := by
  refine ⟨rfl, rfl, ?_, fun moving flavor => rfl⟩
  show Except.error ("Robust spatial normalization failed after " ++ toString (1 - 1 : Nat) ++
      " retries.") = _
  rw [show ("Robust spatial normalization failed after " ++ toString (1 - 1 : Nat) ++
      " retries.") = "Robust spatial normalization failed after 0 retries." from by decide]

/-! ### Preset enumeration -/

lemma charListLe_trans : ∀ {a b c : List Char},
    charListLe a b = true → charListLe b c = true → charListLe a c = true := by
  intro a
  induction a with
  | nil => intro b c h1 h2; rfl
  | cons x xs ih =>
    intro b c h1 h2
    cases b with
    | nil => simp [charListLe] at h1
    | cons y ys =>
      cases c with
      | nil => simp [charListLe] at h2
      | cons z zs =>
        simp only [charListLe] at h1 h2 ⊢
        by_cases hxy : x = y
        · subst hxy
          rw [if_pos rfl] at h1
          by_cases hxz : x = z
          · subst hxz
            rw [if_pos rfl] at h2
            rw [if_pos rfl]
            exact ih h1 h2
          · rw [if_neg hxz] at h2
            rw [if_neg hxz]
            exact h2
        · rw [if_neg hxy] at h1
          have hlt1 : x < y := by simpa using h1
          by_cases hyz : y = z
          · subst hyz
            rw [if_neg hxy]
            simpa using hlt1
          · rw [if_neg hyz] at h2
            have hlt2 : y < z := by simpa using h2
            have hxz : x < z := lt_trans hlt1 hlt2
            rw [if_neg (ne_of_lt hxz)]
            simpa using hxz

lemma charListLe_total : ∀ (a b : List Char), charListLe a b = true ∨ charListLe b a = true := by
  intro a
  induction a with
  | nil => intro b; left; rfl
  | cons x xs ih =>
    intro b
    cases b with
    | nil => right; rfl
    | cons y ys =>
      simp only [charListLe]
      by_cases hxy : x = y
      · subst hxy
        rw [if_pos rfl, if_pos rfl]
        exact ih ys
      · rcases lt_or_gt_of_ne hxy with h | h
        · left
          rw [if_neg hxy]
          simpa using h
        · right
          rw [if_neg (Ne.symm hxy)]
          simpa using h

/-- C6: with user settings, `_get_settings` returns exactly the supplied
list (the data directory is never consulted); without user settings it
returns the data-directory files matching the lower-cased modality/flavor
glob, sorted lexicographically. -/
theorem preset_enumeration (moving flavor : String) (dataFiles : List String) :
    (∀ s : List String, getSettings (some s) moving flavor dataFiles = s) ∧
    List.Sorted (fun a b => strLe a b = true) (getSettings none moving flavor dataFiles) ∧
    List.Perm (getSettings none moving flavor dataFiles)
      (dataFiles.filter (globMatch moving flavor)) := by
  refine ⟨fun s => rfl, ?_, List.perm_insertionSort _ _⟩
  haveI h1 : IsTrans String (fun a b => strLe a b = true) :=
    ⟨fun a b c hab hbc => charListLe_trans hab hbc⟩
  haveI h2 : IsTotal String (fun a b => strLe a b = true) :=
    ⟨fun a b => charListLe_total a.data b.data⟩
  exact List.sorted_insertionSort _ _

/-! ### Input-resolution claims (C1-C3) -/

/-- C1 (amended): with an explicit reference image, a reference mask,
explicit_masking=true, and a lesion mask, the fixed image is the reference
masked by the reference mask, but the fixed-mask argument is
`create_cfm(reference_mask, lesion_mask=None, global_mask=True)` — the
lesion mask is NOT passed through (the reference side does not mirror the
moving side), so the cost-function mask is the all-ones global mask with
nothing subtracted. -/
theorem fixed_masks_ref_lesion (inp : Inputs) (env : TemplateEnv) (ref rm lm : String)
    (h1 : inp.reference_image = some ref) (h2 : inp.reference_mask = some rm)
    (h3 : inp.explicit_masking = true) (h4 : inp.lesion_mask = some lm) :
    Except.map (fun a => (a.fixed_image, a.fixed_image_masks)) (getAntsArgs inp env) =
      Except.ok (ImgExpr.applyMask (ImgExpr.file ref) (ImgExpr.file rm) ("fixed_masked.nii.gz"),
        some (ImgExpr.cfm (ImgExpr.file rm) none true)) ∧
    (∀ store : String → NImage,
      evalExpr store (ImgExpr.cfm (ImgExpr.file rm) none true) =
        Except.ok ⟨List.replicate (store rm).data.length 1, (store rm).affine,
          (store rm).header⟩) := by
  constructor
  · unfold getAntsArgs fixedArgs
    rw [h1, h2, h3, h4]
    rfl
  · intro store
    show create_cfm (store rm) none true = _
    exact create_cfm_global_none (store rm)

theorem fixed_masks_ref_lesion_witness :
    Except.map (fun a => (a.fixed_image, a.fixed_image_masks))
        (getAntsArgs ⟨"mov.nii", some ("ref.nii"), none, some ("rm.nii"), some ("lm.nii"), true,
          Orientation.RAS⟩ ⟨"tpl.nii", "tplmask.nii", true⟩) =
      Except.ok (ImgExpr.applyMask (ImgExpr.file ("ref.nii")) (ImgExpr.file ("rm.nii"))
          ("fixed_masked.nii.gz"),
        some (ImgExpr.cfm (ImgExpr.file ("rm.nii")) none true)) :=
  (fixed_masks_ref_lesion
      ⟨"mov.nii", some ("ref.nii"), none, some ("rm.nii"), some ("lm.nii"), true, Orientation.RAS⟩
      ⟨"tpl.nii", "tplmask.nii", true⟩ "ref.nii" "rm.nii" "lm.nii" rfl rfl rfl rfl).1

/-- C1 (counterexample): at the concrete job the fixed-mask argument is the
CFM built with `lesion_mask=None`, not the lesion-subtracting CFM the claim
requires; evaluating both shows the produced mask keeps the lesion voxel
at 1 whereas the claimed mask would zero it. -/
theorem fixed_masks_ref_lesion_cex :
    Except.map (fun a => a.fixed_image_masks) (getAntsArgs c1inp c1env) =
      Except.ok (some (ImgExpr.cfm (ImgExpr.file ("rm.nii")) none true)) ∧
    Except.map (fun a => a.fixed_image_masks) (getAntsArgs c1inp c1env) ≠
      Except.ok (some (ImgExpr.cfm (ImgExpr.file ("rm.nii")) (some ("lm.nii")) true)) ∧
    evalExpr c1store (ImgExpr.cfm (ImgExpr.file ("rm.nii")) none true) =
      Except.ok ⟨[1, 1], [5], [6]⟩ ∧
    evalExpr c1store (ImgExpr.cfm (ImgExpr.file ("rm.nii")) (some ("lm.nii")) true) =
      Except.ok ⟨[0, 1], [5], [6]⟩ := by decide

/-- C2 (amended): with a lesion mask present, in both sub-cases — (a)
explicit reference image with no reference mask; (b) no reference image,
template resolved, explicit_masking=true — the fixed-mask argument is
`create_cfm(<reference image or template brain mask>, lesion_mask=None,
global_mask=True)`: an all-ones global cost-function mask from which the
lesion region is NOT subtracted. -/
theorem fixed_masks_global_cfm (inp : Inputs) (env : TemplateEnv) (ref lm : String)
    (hlm : inp.lesion_mask = some lm) :
    (inp.reference_image = some ref → inp.reference_mask = none →
      Except.map (fun a => a.fixed_image_masks) (getAntsArgs inp env) =
        Except.ok (some (ImgExpr.cfm (ImgExpr.file ref) none true))) ∧
    (inp.reference_image = none → inp.orientation = Orientation.RAS →
      env.template_found = true → inp.explicit_masking = true →
      Except.map (fun a => a.fixed_image_masks) (getAntsArgs inp env) =
        Except.ok (some (ImgExpr.cfm (ImgExpr.file env.ref_mask) none true))) ∧
    (∀ img : NImage, create_cfm img none true =
      Except.ok ⟨List.replicate img.data.length 1, img.affine, img.header⟩) := by
  refine ⟨?_, ?_, create_cfm_global_none⟩
  · intro h1 h2
    unfold getAntsArgs fixedArgs
    rw [h1, h2, hlm]
    rfl
  · intro h1 h2 h3 h4
    unfold getAntsArgs fixedArgs
    rw [h1, h2, h3, h4, hlm]
    rfl

theorem fixed_masks_global_cfm_witness :
    Except.map (fun a => a.fixed_image_masks) (getAntsArgs c2ainp c1env) =
      Except.ok (some (ImgExpr.cfm (ImgExpr.file ("ref.nii")) none true)) :=
  (fixed_masks_global_cfm c2ainp c1env ("ref.nii") ("lm.nii") rfl).1 rfl rfl

/-- C2 (counterexample): in sub-case (a) the produced fixed mask is not the
lesion-subtracting CFM the claim requires; in sub-case (b) the produced
fixed mask is `create_cfm(brain_mask, None, True)`, which evaluates to the
all-ones mask [1, 1] — not to brain-mask-minus-lesion [0, 0], nor to
all-ones-minus-lesion [0, 1]. -/
theorem fixed_masks_global_cfm_cex :
    Except.map (fun a => a.fixed_image_masks) (getAntsArgs c2ainp c1env) ≠
      Except.ok (some (ImgExpr.cfm (ImgExpr.file ("ref.nii")) (some ("lm.nii")) true)) ∧
    Except.map (fun a => a.fixed_image_masks) (getAntsArgs c2binp c1env) =
      Except.ok (some (ImgExpr.cfm (ImgExpr.file ("tplmask.nii")) none true)) ∧
    evalExpr c2store (ImgExpr.cfm (ImgExpr.file ("tplmask.nii")) none true) =
      Except.ok ⟨[1, 1], [5], [6]⟩ ∧
    evalExpr c2store (ImgExpr.cfm (ImgExpr.file ("tplmask.nii")) (some ("lm.nii")) false) =
      Except.ok ⟨[0, 0], [5], [6]⟩ ∧
    evalExpr c2store (ImgExpr.cfm (ImgExpr.file ("tplmask.nii")) (some ("lm.nii")) true) =
      Except.ok ⟨[0, 1], [5], [6]⟩ := by decide

/-- C3 (amended): for a job with no masks, no explicit reference, a
resolved template and explicit_masking=true, the fixed image handed to the
engine is the template masked by its brain mask with no fixed-mask
argument, the moving image is untouched, and the recorded
`reference_image` output (`self._reference_image`, returned by
`_list_outputs`) is the RAW template path — not the masked template. -/
theorem reference_output_raw (inp : Inputs) (env : TemplateEnv)
    (h1 : inp.reference_image = none) (h2 : inp.moving_mask = none)
    (h3 : inp.lesion_mask = none) (h4 : inp.explicit_masking = true)
    (h5 : inp.orientation = Orientation.RAS) (h6 : env.template_found = true) :
    getAntsArgs inp env =
      Except.ok ⟨ImgExpr.file inp.moving_image, none,
        ImgExpr.applyMask (ImgExpr.file env.ref_template) (ImgExpr.file env.ref_mask)
          ("fixed_masked.nii.gz"),
        none, env.ref_template⟩ := by
  unfold getAntsArgs fixedArgs movingArgs
  rw [h1, h2, h3, h4, h5, h6]
  rfl

theorem reference_output_raw_witness :
    getAntsArgs c3inp c3env =
      Except.ok ⟨ImgExpr.file ("mov.nii"), none,
        ImgExpr.applyMask (ImgExpr.file ("tpl-T1w.nii")) (ImgExpr.file ("tplmask.nii"))
          ("fixed_masked.nii.gz"),
        none, "tpl-T1w.nii"⟩ :=
  reference_output_raw c3inp c3env rfl rfl rfl rfl rfl rfl

/-- C3 (counterexample): at the concrete job the recorded
`reference_image` output is the raw template path, which differs from the
path of the masked template actually used as the fixed image — the claim
that the output equals the masked template path is false. -/
theorem reference_output_cex :
    getAntsArgs c3inp c3env =
      Except.ok ⟨ImgExpr.file ("mov.nii"), none,
        ImgExpr.applyMask (ImgExpr.file ("tpl-T1w.nii")) (ImgExpr.file ("tplmask.nii"))
          ("fixed_masked.nii.gz"),
        none, "tpl-T1w.nii"⟩ ∧
    Except.map (fun a => decide (a.reference_image = ImgExpr.path a.fixed_image))
        (getAntsArgs c3inp c3env) = Except.ok false := by decide

end NiNorm
